import Mathlib

/-!
Verification of the arbiter evaluation-orchestration layer.

Shallow embedding of the arbiter repository's core: the semantic-similarity
evaluator (src/arbiter/evaluators/semantic.py), the score model, the base
evaluator orchestration, the middleware pipeline, the metrics middleware and
the pairwise comparison entry point.  Components whose source files are not
present in the repository snapshot (base.py, middleware.py, pairwise.py,
exceptions) are modelled from the specification, as marked on each
definition.
-/

set_option autoImplicit false

namespace Arbiter

/-- The `Score` value object (src/arbiter/core/models.py, used by
src/arbiter/evaluators/semantic.py): name, numeric value, confidence,
explanation and a metadata mapping.  The semantic evaluator only ever stores
integer counts in the metadata, so the metadata is embedded as a list of
string-keyed natural numbers. -/
structure Score where
  name : String
  value : ℚ
  confidence : ℚ
  explanation : String
  metadata : List (String × Nat)
  deriving Repr, DecidableEq

/-- The validated structured response of the semantic evaluator
(`SemanticResponse` in src/arbiter/evaluators/semantic.py): score and
confidence in [0,1], an explanation, and lists of key differences and key
similarities. -/
structure SemanticResponse where
  score : ℚ
  confidence : ℚ
  explanation : String
  key_differences : List String
  key_similarities : List String
  deriving Repr, DecidableEq

/-- A raw structured LLM reply for the semantic schema, before pydantic
validation: every field may be absent. -/
structure RawSemanticResponse where
  score : Option ℚ
  confidence : Option ℚ
  explanation : Option String
  key_differences : Option (List String)
  key_similarities : Option (List String)
  deriving Repr, DecidableEq

/-- The default declared on `SemanticResponse.confidence`
(src/arbiter/evaluators/semantic.py line 47: `default=0.85`). -/
def defaultConfidence : ℚ := 0.85

/-- Pydantic validation of a raw reply against the `SemanticResponse` schema
declared in src/arbiter/evaluators/semantic.py: `score` is required with
`ge=0.0, le=1.0`; `confidence` defaults to `0.85` with `ge=0.0, le=1.0`;
`explanation` is required; both lists default to empty.  Returns the
validation error message on failure. -/
def validateSemantic (raw : RawSemanticResponse) : Except String SemanticResponse :=
  match raw.score with
  | none => .error "field required: score"
  | some s =>
    if 0 ≤ s ∧ s ≤ 1 then
      let c := raw.confidence.getD defaultConfidence
      if 0 ≤ c ∧ c ≤ 1 then
        match raw.explanation with
        | none => .error "field required: explanation"
        | some e =>
          .ok { score := s, confidence := c, explanation := e,
                key_differences := raw.key_differences.getD [],
                key_similarities := raw.key_similarities.getD [] }
      else .error "confidence must be between 0 and 1"
    else .error "score must be between 0 and 1"

/-- The standard comparison user prompt built by
`SemanticEvaluator._get_user_prompt` when a (truthy) reference is given
(src/arbiter/evaluators/semantic.py lines 152-161). -/
def comparisonPrompt (output reference : String) : String :=
  "Compare the semantic similarity of these two texts:\n\nOUTPUT (to evaluate):\n"
    ++ output
    ++ "\n\nREFERENCE (ground truth):\n"
    ++ reference
    ++ "\n\nAssess how similar they are in MEANING. Consider whether they convey the same information,\neven if expressed differently. Provide a detailed analysis."

/-- The criteria-guided fallback user prompt built by
`SemanticEvaluator._get_user_prompt` when the reference is falsy but the
criteria is truthy (src/arbiter/evaluators/semantic.py lines 136-142). -/
def criteriaPrompt (output criteria : String) : String :=
  "Evaluate the semantic quality of this text based on the criteria: "
    ++ criteria
    ++ "\n\nText to evaluate:\n"
    ++ output
    ++ "\n\nProvide your semantic quality assessment."

/-- The general-coherence fallback user prompt built by
`SemanticEvaluator._get_user_prompt` when both reference and criteria are
falsy (src/arbiter/evaluators/semantic.py lines 143-149). -/
def coherencePrompt (output : String) : String :=
  "Evaluate the semantic coherence and clarity of this text:\n\n"
    ++ output
    ++ "\n\nAssess how well the text conveys clear meaning and logical ideas."

/-- Python truthiness test on an optional string: `not x` is true when the
argument is `None` or the empty string. -/
def optionStrFalsy : Option String → Bool
  | none => true
  | some s => s == ""

/-- The method `SemanticEvaluator._get_user_prompt`
(src/arbiter/evaluators/semantic.py lines 129-161): `if not reference` falls back to the criteria prompt when
`criteria` is truthy, else to the coherence prompt; a truthy reference gives
the standard comparison prompt. -/
def getUserPrompt (output : String) (reference criteria : Option String) : String :=
  if optionStrFalsy reference then
    if ¬ optionStrFalsy criteria then
      criteriaPrompt output (criteria.getD "")
    else
      coherencePrompt output
  else
    comparisonPrompt output (reference.getD "")

/-- The method `SemanticEvaluator._compute_score`
(src/arbiter/evaluators/semantic.py lines 167-201): joins the response explanation with a bulleted
key-similarities section (when non-empty) and then a bulleted
key-differences section (when non-empty), and records both list lengths in
the metadata. -/
def computeScore (r : SemanticResponse) : Score :=
  let explanationParts : List String :=
    [r.explanation]
      ++ (if r.key_similarities.isEmpty then []
          else ["\n\nKey Similarities:\n- " ++ String.intercalate "\n- " r.key_similarities])
      ++ (if r.key_differences.isEmpty then []
          else ["\n\nKey Differences:\n- " ++ String.intercalate "\n- " r.key_differences])
  { name := "semantic_similarity"
    value := r.score
    confidence := r.confidence
    explanation := String.join explanationParts
    metadata := [("similarities_count", r.key_similarities.length),
                 ("differences_count", r.key_differences.length)] }

/-- The method `SemanticEvaluator._get_system_prompt` returns a fixed string
(src/arbiter/evaluators/semantic.py lines 104-127); only its identity
matters here, so it is embedded by its first line. -/
def getSystemPrompt : String :=
  "You are an expert at evaluating semantic similarity between texts."

/-- Modelled from the spec: the error taxonomy of §7 for the kinds the
claims mention (the exception classes of the repository are not under
src/). -/
inductive EvalError where
  | configurationError
  | schemaValidationError
  deriving Repr, DecidableEq

/-- Modelled from the spec: what the LLM client collaborator returns for one
round-trip — the parsed structured output attempt plus latency and
token-usage figures (§6). -/
structure ClientReply where
  raw : RawSemanticResponse
  latency : ℚ
  tokens : Nat
  deriving Repr, DecidableEq

/-- Modelled from the spec: one Interaction record of the append-only
telemetry log — prompts sent, raw response, latency, token usage (§3). -/
structure Interaction where
  systemPrompt : String
  userPrompt : String
  rawResponse : RawSemanticResponse
  latency : ℚ
  tokensUsed : Nat
  deriving Repr, DecidableEq

/-- Modelled from the spec: the observable outcome of one `evaluate` call —
the result, how many LLM client calls were made, how many repair re-prompts
were attempted, and the Interaction records appended to the evaluator's
log. -/
structure EvalTrace where
  result : Except EvalError Score
  llmCalls : Nat
  repairAttempts : Nat
  interactions : List Interaction
  deriving Repr

/-- Modelled from the spec: the repair re-prompt is the original user prompt
with the validation error appended (§4.1). -/
def repairPrompt (userPrompt errorMsg : String) : String :=
  userPrompt ++ "\n\nThe previous response failed validation: " ++ errorMsg

/-- Modelled from the spec: the base evaluator orchestration of §4.1
(src/arbiter/evaluators/base.py is not in the snapshot), instantiated with
the semantic evaluator's prompts and schema.  The LLM client collaborator is
a function from the user prompt sent to its reply.  Sequence: fail fast with
ConfigurationError on empty output before any client call; otherwise build
prompts, call the client, validate; on validation failure attempt exactly
one repair re-prompt with the validation error appended; if that also fails
validation, fail with SchemaValidationError; on success append an
Interaction record and return the variant's computed Score. -/
def evaluateSemantic (client : String → ClientReply) (output : String)
    (reference criteria : Option String) : EvalTrace :=
  if output = "" then
    { result := .error .configurationError, llmCalls := 0, repairAttempts := 0,
      interactions := [] }
  else
    let userPrompt := getUserPrompt output reference criteria
    let reply := client userPrompt
    match validateSemantic reply.raw with
    | .ok resp =>
      { result := .ok (computeScore resp), llmCalls := 1, repairAttempts := 0,
        interactions := [{ systemPrompt := getSystemPrompt, userPrompt := userPrompt,
                           rawResponse := reply.raw, latency := reply.latency,
                           tokensUsed := reply.tokens }] }
    | .error msg =>
      let prompt2 := repairPrompt userPrompt msg
      let reply2 := client prompt2
      match validateSemantic reply2.raw with
      | .ok resp =>
        { result := .ok (computeScore resp), llmCalls := 2, repairAttempts := 1,
          interactions := [{ systemPrompt := getSystemPrompt, userPrompt := prompt2,
                             rawResponse := reply2.raw, latency := reply2.latency,
                             tokensUsed := reply2.tokens }] }
      | .error _ =>
        { result := .error .schemaValidationError, llmCalls := 2, repairAttempts := 1,
          interactions := [] }

/-! ## Middleware pipeline, modelled from the spec (§4.2)

src/arbiter/core/middleware.py is not in the snapshot; the example
src/examples/pairwise_with_middleware.py shows its surface
(`MiddlewarePipeline([...])`, `Middleware.process(output, reference,
next_handler, context)`, `MetricsMiddleware.get_metrics()`). -/

/-- Modelled from the spec: the call-scoped state a middleware chain can
observe and mutate — an event log (for entry/exit ordering) and the
evaluator's Interaction log (for the short-circuit frame property). -/
structure MWState where
  log : List String
  interactions : List Interaction
  deriving Repr, DecidableEq

/-- Modelled from the spec: a handler is a continuation taking the output,
the optional reference and the current state, returning a result and the
next state — either the next middleware in the chain or the terminal
evaluation call. -/
def Handler := String → Option String → MWState → Score × MWState

/-- Modelled from the spec: a Middleware is a capability with one operation
`process(output, reference, next_handler, context)`; it may call the
continuation or deliberately decline to. -/
def Middleware := String → Option String → Handler → MWState → Score × MWState

/-- Modelled from the spec: a MiddlewarePipeline composes its ordered
sequence of middleware so that the first middleware in the sequence is
outermost — standard nested-wrapper composition around the terminal
handler. -/
def runPipeline : List Middleware → Handler → Handler
  | [], terminal => terminal
  | m :: rest, terminal => fun out ref s => m out ref (runPipeline rest terminal) s

/-- Modelled from the spec: a logging-style middleware that records an entry
event, invokes the continuation, and records an exit event. -/
def traceMiddleware (tag : String) : Middleware := fun out ref next s =>
  let r := next out ref { s with log := s.log ++ ["enter " ++ tag] }
  (r.1, { r.2 with log := r.2.log ++ ["leave " ++ tag] })

/-- Modelled from the spec: a caching-style middleware that declines to call
`next_handler` and returns its own value, short-circuiting the chain. -/
def shortCircuitMiddleware (v : Score) : Middleware := fun _ _ _ s => (v, s)

/-- Modelled from the spec: a terminal handler that performs the evaluator
call, appending one Interaction record and one event. -/
def terminalEvaluator (sc : Score) (rec : Interaction) : Handler := fun _ _ s =>
  (sc, { s with log := s.log ++ ["terminal evaluator"],
                interactions := s.interactions ++ [rec] })

/-! ## Metrics middleware, modelled from the spec (§4.2, §6) and the
example's usage (src/examples/pairwise_with_middleware.py lines 96-102). -/

/-- Modelled from the spec: the running totals a MetricsMiddleware instance
accumulates across all calls it has intercepted — total call count, total
elapsed time, summed token usage. -/
structure Metrics where
  total_requests : Nat
  total_time : ℚ
  tokens_used : Nat
  deriving Repr, DecidableEq

/-- The freshly-constructed MetricsMiddleware totals: nothing intercepted
yet. -/
def Metrics.init : Metrics :=
  { total_requests := 0, total_time := 0, tokens_used := 0 }

/-- Modelled from the spec: one intercepted call updates the running totals
atomically — increments the request count and accumulates the elapsed time
and token usage of that call. -/
def Metrics.record (m : Metrics) (elapsed : ℚ) (tokens : Nat) : Metrics :=
  { total_requests := m.total_requests + 1,
    total_time := m.total_time + elapsed,
    tokens_used := m.tokens_used + tokens }

/-- Modelled from the spec: N sequential calls through one MetricsMiddleware
instance, each contributing its elapsed time and token usage. -/
def Metrics.recordAll (m : Metrics) : List (ℚ × Nat) → Metrics
  | [] => m
  | c :: cs => (m.record c.1 c.2).recordAll cs

/-- The snapshot returned by `MetricsMiddleware.get_metrics()` — the example
(src/examples/pairwise_with_middleware.py lines 97-102) reads exactly the
keys total_requests, total_time, avg_time_per_request and tokens_used. -/
structure MetricsSnapshot where
  total_requests : Nat
  total_time : ℚ
  avg_time_per_request : ℚ
  tokens_used : Nat
  deriving Repr, DecidableEq

/-- Modelled from the spec: `get_metrics` exposes the totals plus the
derived average latency (0 before any request). -/
def Metrics.get_metrics (m : Metrics) : MetricsSnapshot :=
  { total_requests := m.total_requests,
    total_time := m.total_time,
    avg_time_per_request :=
      if m.total_requests = 0 then 0 else m.total_time / m.total_requests,
    tokens_used := m.tokens_used }

/-! ## Pairwise comparison, modelled from the spec (§4.4)

src/arbiter/evaluators/pairwise.py and the `compare` entry point are not in
the snapshot; the example src/examples/pairwise_with_middleware.py shows the
result surface (`winner`, `confidence`, `reasoning`, `aspect_scores`). -/

/-- Modelled from the spec: a raw structured pairwise reply before schema
validation — winner tag, confidence, reasoning, and an optional mapping
from aspect name to a pair of sub-scores, each possibly absent. -/
structure RawPairwiseResponse where
  winner : Option String
  confidence : Option ℚ
  reasoning : Option String
  aspect_scores : Option (List (String × ℚ × ℚ))
  deriving Repr, DecidableEq

/-- The `PairwiseComparisonResult` of §3: winner tag from the fixed closed
set, confidence, reasoning, optional aspect sub-score mapping. -/
structure PairwiseComparisonResult where
  winner : String
  confidence : ℚ
  reasoning : String
  aspect_scores : Option (List (String × ℚ × ℚ))
  deriving Repr, DecidableEq

/-- Modelled from the spec: validation of a raw pairwise reply — winner must
be one of the closed enum values "output_a", "output_b", "tie"; confidence
must lie in [0,1]; reasoning is required; aspect scores are optional. -/
def validatePairwise (raw : RawPairwiseResponse) : Except String PairwiseComparisonResult :=
  match raw.winner, raw.confidence, raw.reasoning with
  | some w, some c, some rationale =>
    if w = "output_a" ∨ w = "output_b" ∨ w = "tie" then
      if 0 ≤ c ∧ c ≤ 1 then
        .ok { winner := w, confidence := c, reasoning := rationale,
              aspect_scores := raw.aspect_scores }
      else .error "confidence must be between 0 and 1"
    else .error "winner must be one of output_a, output_b, tie"
  | _, _, _ => .error "field required"

/-- Modelled from the spec: the user prompt of the single structured
pairwise judgment call, built from both outputs and the criteria. -/
def pairwisePrompt (output_a output_b criteria : String) : String :=
  "Compare these two outputs against the criteria: " ++ criteria
    ++ "\n\nOUTPUT A:\n" ++ output_a
    ++ "\n\nOUTPUT B:\n" ++ output_b
    ++ "\n\nDeclare a winner of output_a, output_b or tie."

/-- Modelled from the spec: the `compare` entry point (§4.4, §6) — fail fast
with ConfigurationError on an empty output, otherwise one structured LLM
call validated against the pairwise schema with the base orchestration's
single repair re-prompt, failing with SchemaValidationError if the repaired
reply still does not validate. -/
def compare (client : String → RawPairwiseResponse)
    (output_a output_b criteria : String) : Except EvalError PairwiseComparisonResult :=
  if output_a = "" ∨ output_b = "" then .error .configurationError
  else
    let prompt := pairwisePrompt output_a output_b criteria
    match validatePairwise (client prompt) with
    | .ok r => .ok r
    | .error msg =>
      match validatePairwise (client (repairPrompt prompt msg)) with
      | .ok r => .ok r
      | .error _ => .error .schemaValidationError

/-! ## Shared lemmas -/

/-- Any response that passes the `SemanticResponse` validation has score and
confidence in the unit interval. -/
theorem validateSemantic_ok_bounds {raw : RawSemanticResponse} {resp : SemanticResponse}
    (h : validateSemantic raw = .ok resp) :
    0 ≤ resp.score ∧ resp.score ≤ 1 ∧ 0 ≤ resp.confidence ∧ resp.confidence ≤ 1 := by
  unfold validateSemantic at h
  split at h
  · exact absurd h (by simp)
  next s hs =>
    by_cases h1 : 0 ≤ s ∧ s ≤ 1
    · rw [if_pos h1] at h
      by_cases h2 : 0 ≤ raw.confidence.getD defaultConfidence ∧
          raw.confidence.getD defaultConfidence ≤ 1
      · rw [if_pos h2] at h
        split at h
        · exact absurd h (by simp)
        next e he =>
          injection h with h
          subst h
          exact ⟨h1.1, h1.2, h2.1, h2.2⟩
      · rw [if_neg h2] at h
        exact absurd h (by simp)
    · rw [if_neg h1] at h
      exact absurd h (by simp)

/-- Any result that passes the pairwise validation has a winner from the
closed set and confidence in the unit interval. -/
theorem validatePairwise_ok_bounds {raw : RawPairwiseResponse} {r : PairwiseComparisonResult}
    (h : validatePairwise raw = .ok r) :
    (r.winner = "output_a" ∨ r.winner = "output_b" ∨ r.winner = "tie") ∧
      0 ≤ r.confidence ∧ r.confidence ≤ 1 := by
  obtain ⟨ow, oc, orsn, oas⟩ := raw
  cases ow with
  | none => exact absurd h (by simp [validatePairwise])
  | some w =>
    cases oc with
    | none => exact absurd h (by simp [validatePairwise])
    | some c =>
      cases orsn with
      | none => exact absurd h (by simp [validatePairwise])
      | some rationale =>
        simp only [validatePairwise] at h
        by_cases h1 : w = "output_a" ∨ w = "output_b" ∨ w = "tie"
        · rw [if_pos h1] at h
          by_cases h2 : 0 ≤ c ∧ c ≤ 1
          · rw [if_pos h2] at h
            injection h with h
            subst h
            exact ⟨h1, h2.1, h2.2⟩
          · rw [if_neg h2] at h
            exact absurd h (by simp)
        · rw [if_neg h1] at h
          exact absurd h (by simp)

end Arbiter

namespace Arbiter

/-! ## Claims -/

/-- C1: for every valid (non-empty) output string, a successful `evaluate`
call of the semantic evaluator returns a Score whose value and confidence
both lie in [0,1]; a raw reply whose score is out of range cannot pass
validation, so the evaluator fails rather than returning an out-of-range
Score. -/
theorem evaluate_score_within_unit_interval :
    (∀ (client : String → ClientReply) (output : String) (reference criteria : Option String)
        (s : Score),
        (evaluateSemantic client output reference criteria).result = .ok s →
        0 ≤ s.value ∧ s.value ≤ 1 ∧ 0 ≤ s.confidence ∧ s.confidence ≤ 1) ∧
    (∀ (raw : RawSemanticResponse) (v : ℚ), raw.score = some v → (v < 0 ∨ 1 < v) →
        validateSemantic raw = .error "score must be between 0 and 1") := by
  constructor
  · intro client output reference criteria s h
    unfold evaluateSemantic at h
    by_cases hout : output = ""
    · rw [if_pos hout] at h
      exact absurd h (by simp)
    · rw [if_neg hout] at h
      simp only [] at h
      split at h
      next resp hv =>
        injection h with h
        subst h
        obtain ⟨hb1, hb2, hb3, hb4⟩ := validateSemantic_ok_bounds hv
        exact ⟨hb1, hb2, hb3, hb4⟩
      next msg hv =>
        split at h
        next resp2 hv2 =>
          injection h with h
          subst h
          obtain ⟨hb1, hb2, hb3, hb4⟩ := validateSemantic_ok_bounds hv2
          exact ⟨hb1, hb2, hb3, hb4⟩
        next => exact absurd h (by simp)
  · intro raw v hv hout
    have hrange : ¬ (0 ≤ v ∧ v ≤ 1) := by
      rcases hout with hlt | hgt
      · exact fun hc => absurd hc.1 (not_le.mpr hlt)
      · exact fun hc => absurd hc.2 (not_le.mpr hgt)
    simp only [validateSemantic, hv]
    rw [if_neg hrange]

/-- A client whose reply validates: used to witness C1. -/
def sampleClientGood : String → ClientReply := fun _ =>
  { raw := { score := some (9/10), confidence := none, explanation := some "close in meaning",
             key_differences := some ["tone"], key_similarities := some ["same fact"] },
    latency := 1, tokens := 42 }

/-- The Score produced by the semantic evaluator from `sampleClientGood`. -/
def sampleScoreGood : Score := computeScore
  { score := 9/10, confidence := defaultConfidence, explanation := "close in meaning",
    key_differences := ["tone"], key_similarities := ["same fact"] }

/-- Witness for C1 at a concrete client and output. -/
theorem evaluate_score_within_unit_interval_witness :
    0 ≤ sampleScoreGood.value ∧ sampleScoreGood.value ≤ 1 ∧
      0 ≤ sampleScoreGood.confidence ∧ sampleScoreGood.confidence ≤ 1 :=
  evaluate_score_within_unit_interval.1 sampleClientGood "Paris is the capital of France"
    (some "The capital of France is Paris") none sampleScoreGood (by
      unfold evaluateSemantic sampleClientGood validateSemantic
      norm_num [defaultConfidence, sampleScoreGood]
      rw [if_neg (by decide : ¬ ("Paris is the capital of France" = ""))])

/-- C2: when the first structured reply fails schema validation, exactly one
repair re-prompt (the user prompt with the validation error appended) is
attempted — one repair, two client calls in total; if the repaired reply
still fails validation, the call fails with SchemaValidationError and is not
converted into a default or zero Score. -/
theorem evaluate_single_repair_then_schema_error
    (client : String → ClientReply) (output : String) (reference criteria : Option String)
    (msg : String)
    (hout : output ≠ "")
    (hfail : validateSemantic (client (getUserPrompt output reference criteria)).raw
        = .error msg) :
    (evaluateSemantic client output reference criteria).repairAttempts = 1 ∧
    (evaluateSemantic client output reference criteria).llmCalls = 2 ∧
    ∀ msg2,
      validateSemantic
          (client (repairPrompt (getUserPrompt output reference criteria) msg)).raw
        = .error msg2 →
      (evaluateSemantic client output reference criteria).result
        = .error .schemaValidationError := by
  unfold evaluateSemantic
  rw [if_neg hout]
  simp only [hfail]
  refine ⟨?_, ?_, ?_⟩
  · split <;> rfl
  · split <;> rfl
  · intro msg2 h2
    simp only [h2]

/-- A client whose replies always miss the required score field: used to
witness C2. -/
def sampleClientBad : String → ClientReply := fun _ =>
  { raw := { score := none, confidence := none, explanation := none,
             key_differences := none, key_similarities := none },
    latency := 1, tokens := 7 }

/-- Witness for C2 at a concrete client and output. -/
theorem evaluate_single_repair_then_schema_error_witness :
    (evaluateSemantic sampleClientBad "hello" none none).repairAttempts = 1 ∧
      (evaluateSemantic sampleClientBad "hello" none none).result
        = .error .schemaValidationError := by
  have h := evaluate_single_repair_then_schema_error sampleClientBad "hello" none none
    "field required: score" (by decide) (by rfl)
  exact ⟨h.1, h.2.2 "field required: score" (by rfl)⟩

/-- C3: an `evaluate` call with an empty output string fails with
ConfigurationError, makes zero LLM client calls, appends no Interaction
record, and its outcome does not depend on the client collaborator at
all. -/
theorem evaluate_empty_output_configuration_error
    (client : String → ClientReply) (reference criteria : Option String) :
    (evaluateSemantic client "" reference criteria).result = .error .configurationError ∧
    (evaluateSemantic client "" reference criteria).llmCalls = 0 ∧
    (evaluateSemantic client "" reference criteria).interactions = [] ∧
    (∀ client2 : String → ClientReply,
        evaluateSemantic client "" reference criteria
          = evaluateSemantic client2 "" reference criteria) :=
  ⟨rfl, rfl, rfl, fun _ => rfl⟩

/-- C4: with middleware sequence [A, B] wrapping a call, the composed
invocation runs A's entry first, then B's entry, then the terminal
evaluator, then B's exit, then A's exit — the first middleware in the
sequence is outermost. -/
theorem middleware_first_is_outermost (a b : String) (sc : Score) (rec : Interaction)
    (out : String) (ref : Option String) (s0 : MWState) :
    (runPipeline [traceMiddleware a, traceMiddleware b] (terminalEvaluator sc rec)
        out ref s0).2.log
      = s0.log ++ ["enter " ++ a, "enter " ++ b, "terminal evaluator",
                   "leave " ++ b, "leave " ++ a] := by
  simp [runPipeline, traceMiddleware, terminalEvaluator]

/-- C5: a middleware that returns without invoking `next_handler`
short-circuits the chain — whatever well-behaved middleware precede it, the
final result of the call is the short-circuiting middleware's own value, the
interaction log gains zero records, and the outcome does not depend on the
remaining chain or the terminal handler at all. -/
theorem middleware_short_circuit_skips_terminal (v : Score) (tags : List String)
    (rest : List Middleware) (terminal : Handler) (out : String) (ref : Option String)
    (s0 : MWState) :
    (runPipeline (tags.map traceMiddleware ++ shortCircuitMiddleware v :: rest)
        terminal out ref s0).1 = v ∧
    (runPipeline (tags.map traceMiddleware ++ shortCircuitMiddleware v :: rest)
        terminal out ref s0).2.interactions = s0.interactions ∧
    ∀ terminal2 : Handler,
      runPipeline (tags.map traceMiddleware ++ shortCircuitMiddleware v :: rest)
          terminal out ref s0
        = runPipeline (tags.map traceMiddleware ++ shortCircuitMiddleware v :: rest)
            terminal2 out ref s0 := by
  induction tags generalizing s0 with
  | nil => exact ⟨rfl, rfl, fun _ => rfl⟩
  | cons t ts ih =>
    obtain ⟨ih1, ih2, ih3⟩ := ih { s0 with log := s0.log ++ ["enter " ++ t] }
    refine ⟨?_, ?_, ?_⟩
    · simpa [runPipeline, traceMiddleware] using ih1
    · simpa [runPipeline, traceMiddleware] using ih2
    · intro terminal2
      simp only [List.map_cons, List.cons_append, runPipeline, traceMiddleware,
        List.append_eq]
      rw [ih3 terminal2]

/-- The running totals after a sequence of recorded calls relate to the
starting totals by the length and the two sums. -/
theorem recordAll_totals (m : Metrics) (calls : List (ℚ × Nat)) :
    (m.recordAll calls).total_requests = m.total_requests + calls.length ∧
    (m.recordAll calls).total_time = m.total_time + (calls.map Prod.fst).sum ∧
    (m.recordAll calls).tokens_used = m.tokens_used + (calls.map Prod.snd).sum := by
  induction calls generalizing m with
  | nil => simp [Metrics.recordAll]
  | cons c cs ih =>
    obtain ⟨h1, h2, h3⟩ := ih (m.record c.1 c.2)
    refine ⟨?_, ?_, ?_⟩
    · rw [Metrics.recordAll, h1]
      simp [Metrics.record]
      omega
    · rw [Metrics.recordAll, h2]
      simp [Metrics.record]
      ring
    · rw [Metrics.recordAll, h3]
      simp [Metrics.record]
      omega

/-- C6: after N sequential calls through one MetricsMiddleware instance, the
get_metrics snapshot reports total_requests = N, total_time and tokens_used
as the accumulated sums, avg_time_per_request = total_time / N, and exposes
exactly the four keys total_requests, total_time, avg_time_per_request and
tokens_used. -/
theorem metrics_totals_after_n_calls (calls : List (ℚ × Nat)) (h : calls ≠ []) :
    ((Metrics.init.recordAll calls).get_metrics).total_requests = calls.length ∧
    ((Metrics.init.recordAll calls).get_metrics).total_time = (calls.map Prod.fst).sum ∧
    ((Metrics.init.recordAll calls).get_metrics).tokens_used = (calls.map Prod.snd).sum ∧
    ((Metrics.init.recordAll calls).get_metrics).avg_time_per_request
      = ((Metrics.init.recordAll calls).get_metrics).total_time / calls.length := by
  obtain ⟨h1, h2, h3⟩ := recordAll_totals Metrics.init calls
  have hreq : (Metrics.init.recordAll calls).total_requests = calls.length := by
    rw [h1]
    simp [Metrics.init]
  have htime : (Metrics.init.recordAll calls).total_time = (calls.map Prod.fst).sum := by
    rw [h2]
    simp [Metrics.init]
  have htok : (Metrics.init.recordAll calls).tokens_used = (calls.map Prod.snd).sum := by
    rw [h3]
    simp [Metrics.init]
  have hne : (Metrics.init.recordAll calls).total_requests ≠ 0 := by
    rw [hreq]
    exact fun hc => h (List.length_eq_zero.mp hc)
  refine ⟨?_, ?_, ?_, ?_⟩
  · simpa [Metrics.get_metrics] using hreq
  · simpa [Metrics.get_metrics] using htime
  · simpa [Metrics.get_metrics] using htok
  · simp [Metrics.get_metrics, hne, hreq]
    intro hc
    exact absurd hc h

/-- Witness for C6 at two concrete calls. -/
theorem metrics_totals_after_n_calls_witness :
    ((Metrics.init.recordAll [((2 : ℚ), 10), ((4 : ℚ), 20)]).get_metrics).total_requests
        = [((2 : ℚ), 10), ((4 : ℚ), 20)].length ∧
    ((Metrics.init.recordAll [((2 : ℚ), 10), ((4 : ℚ), 20)]).get_metrics).total_time
        = ([((2 : ℚ), 10), ((4 : ℚ), 20)].map Prod.fst).sum ∧
    ((Metrics.init.recordAll [((2 : ℚ), 10), ((4 : ℚ), 20)]).get_metrics).tokens_used
        = ([((2 : ℚ), 10), ((4 : ℚ), 20)].map Prod.snd).sum ∧
    ((Metrics.init.recordAll [((2 : ℚ), 10), ((4 : ℚ), 20)]).get_metrics).avg_time_per_request
        = ((Metrics.init.recordAll [((2 : ℚ), 10), ((4 : ℚ), 20)]).get_metrics).total_time
            / [((2 : ℚ), 10), ((4 : ℚ), 20)].length :=
  metrics_totals_after_n_calls [((2 : ℚ), 10), ((4 : ℚ), 20)] (List.cons_ne_nil _ _)

/-- A client that declares a tie with in-range confidence: used to show that
tie is a first-class successful outcome (C7). -/
def tieClient : String → RawPairwiseResponse := fun _ =>
  { winner := some "tie", confidence := some 1, reasoning := some "equally brief",
    aspect_scores := none }

/-- The PairwiseComparisonResult produced from `tieClient`. -/
def tieResult : PairwiseComparisonResult :=
  { winner := "tie", confidence := 1, reasoning := "equally brief", aspect_scores := none }

/-- C7: every successful `compare` call returns a PairwiseComparisonResult
whose winner is drawn from the fixed closed set of output_a, output_b
and tie, with confidence in [0,1]; and a tie verdict is a valid successful
outcome, not an error. -/
theorem compare_result_winner_closed_set :
    (∀ (client : String → RawPairwiseResponse) (output_a output_b criteria : String)
        (r : PairwiseComparisonResult),
        compare client output_a output_b criteria = .ok r →
        (r.winner = "output_a" ∨ r.winner = "output_b" ∨ r.winner = "tie") ∧
          0 ≤ r.confidence ∧ r.confidence ≤ 1) ∧
    compare tieClient "Short answer A" "Short answer B" "brevity" = .ok tieResult := by
  constructor
  · intro client oa ob cr r h
    unfold compare at h
    by_cases hempty : oa = "" ∨ ob = ""
    · rw [if_pos hempty] at h
      exact absurd h (by simp)
    · rw [if_neg hempty] at h
      simp only [] at h
      split at h
      next r1 hv =>
        injection h with h
        subst h
        exact validatePairwise_ok_bounds hv
      next msg hv =>
        split at h
        next r2 hv2 =>
          injection h with h
          subst h
          exact validatePairwise_ok_bounds hv2
        next => exact absurd h (by simp)
  · unfold compare
    rw [if_neg (by decide : ¬ ("Short answer A" = "" ∨ "Short answer B" = ""))]
    have hv : validatePairwise
        (tieClient (pairwisePrompt "Short answer A" "Short answer B" "brevity"))
        = .ok tieResult := by
      unfold tieClient validatePairwise
      simp only []
      rw [if_pos (Or.inr (Or.inr trivial)), if_pos (by norm_num : (0:ℚ) ≤ 1 ∧ (1:ℚ) ≤ 1)]
      rfl
    simp only [hv]

/-- Witness for C7: the closed-set and confidence bounds hold at the
concrete tie comparison. -/
theorem compare_result_winner_closed_set_witness :
    (tieResult.winner = "output_a" ∨ tieResult.winner = "output_b" ∨
        tieResult.winner = "tie") ∧
      0 ≤ tieResult.confidence ∧ tieResult.confidence ≤ 1 :=
  compare_result_winner_closed_set.1 tieClient "Short answer A" "Short answer B" "brevity"
    tieResult compare_result_winner_closed_set.2

/-- C8 counterexample: with the reference present but equal to the empty
string, `_get_user_prompt` does not request a semantic comparison against
the reference — the source's `if not reference:` treats an empty reference
like an absent one and builds the general coherence prompt instead. -/
theorem userPrompt_empty_reference_counterexample :
    getUserPrompt "Paris is nice" (some "") none = coherencePrompt "Paris is nice" ∧
    getUserPrompt "Paris is nice" (some "") none ≠ comparisonPrompt "Paris is nice" "" := by
  constructor
  · rfl
  · decide

/-- C8 amended: the user prompt is chosen by a three-way fallback where
presence means present and non-empty — a non-empty reference yields the
semantic comparison prompt; with the reference absent or empty, a non-empty
criteria yields the criteria-guided quality prompt; with both absent or
empty, the general coherence prompt is built.  The choice is total, so the
evaluator never fails merely because reference or criteria is omitted. -/
theorem userPrompt_three_way_fallback (output : String) (reference criteria : Option String) :
    (∀ r, reference = some r → r ≠ "" →
        getUserPrompt output reference criteria = comparisonPrompt output r) ∧
    ((reference = none ∨ reference = some "") →
        ∀ c, criteria = some c → c ≠ "" →
          getUserPrompt output reference criteria = criteriaPrompt output c) ∧
    ((reference = none ∨ reference = some "") → (criteria = none ∨ criteria = some "") →
        getUserPrompt output reference criteria = coherencePrompt output) := by
  refine ⟨?_, ?_, ?_⟩
  · rintro r rfl hr
    simp [getUserPrompt, optionStrFalsy, beq_iff_eq, hr]
  · rintro (rfl | rfl) c rfl hc <;>
      simp [getUserPrompt, optionStrFalsy, beq_iff_eq, hc]
  · rintro (rfl | rfl) (rfl | rfl) <;>
      simp [getUserPrompt, optionStrFalsy]

/-- Witness for the amended C8 at concrete inputs from each of the three
branches. -/
theorem userPrompt_three_way_fallback_witness :
    getUserPrompt "an output" (some "a reference") none
      = comparisonPrompt "an output" "a reference" ∧
    getUserPrompt "an output" none (some "clarity") = criteriaPrompt "an output" "clarity" ∧
    getUserPrompt "an output" (some "") none = coherencePrompt "an output" :=
  ⟨(userPrompt_three_way_fallback "an output" (some "a reference") none).1
      "a reference" rfl (by decide),
   (userPrompt_three_way_fallback "an output" none (some "clarity")).2.1
      (Or.inl rfl) "clarity" rfl (by decide),
   (userPrompt_three_way_fallback "an output" (some "") none).2.2
      (Or.inr rfl) (Or.inl rfl)⟩

/-- C9: the semantic score-computation hook is a pure function of the
validated response — the Score's explanation is exactly the response's
explanation followed by the bulleted key-similarities section (when
non-empty) and then the bulleted key-differences section (when non-empty),
its metadata records the two list lengths as similarities_count and
differences_count, value and confidence are copied verbatim, and computing
it twice yields identical fields. -/
theorem computeScore_explanation_format_and_pure (r : SemanticResponse) :
    (computeScore r).explanation
      = r.explanation
        ++ (if r.key_similarities = [] then ""
            else "\n\nKey Similarities:\n- "
              ++ String.intercalate "\n- " r.key_similarities)
        ++ (if r.key_differences = [] then ""
            else "\n\nKey Differences:\n- "
              ++ String.intercalate "\n- " r.key_differences) ∧
    (computeScore r).metadata
      = [("similarities_count", r.key_similarities.length),
         ("differences_count", r.key_differences.length)] ∧
    (computeScore r).name = "semantic_similarity" ∧
    (computeScore r).value = r.score ∧
    (computeScore r).confidence = r.confidence ∧
    computeScore r = computeScore r := by
  obtain ⟨sc, cf, ex, kd, ks⟩ := r
  refine ⟨?_, rfl, rfl, rfl, rfl, rfl⟩
  cases ks <;> cases kd <;>
    simp [computeScore, String.join, String.append_empty, String.empty_append]

/-- C10: a structured semantic reply that omits the confidence field still
validates, and the validated confidence — propagated verbatim into the
Score by the score hook — is exactly the schema default 0.85, not 0 and not
a failure. -/
theorem validateSemantic_confidence_default (raw : RawSemanticResponse)
    (hconf : raw.confidence = none) (s : ℚ) (hs : raw.score = some s)
    (hs0 : 0 ≤ s) (hs1 : s ≤ 1) (e : String) (he : raw.explanation = some e) :
    validateSemantic raw
      = .ok { score := s, confidence := 0.85, explanation := e,
              key_differences := raw.key_differences.getD [],
              key_similarities := raw.key_similarities.getD [] } ∧
    ∀ resp, validateSemantic raw = .ok resp → (computeScore resp).confidence = 0.85 := by
  have hd : 0 ≤ defaultConfidence ∧ defaultConfidence ≤ 1 := by
    norm_num [defaultConfidence]
  have h1 : validateSemantic raw
      = .ok { score := s, confidence := 0.85, explanation := e,
              key_differences := raw.key_differences.getD [],
              key_similarities := raw.key_similarities.getD [] } := by
    simp only [validateSemantic, hconf, hs, he, Option.getD_none]
    rw [if_pos ⟨hs0, hs1⟩, if_pos hd]
    rfl
  refine ⟨h1, fun resp hresp => ?_⟩
  rw [h1] at hresp
  injection hresp with hresp
  subst hresp
  rfl

/-- A raw reply that omits the confidence field: used to witness C10. -/
def sampleRawNoConfidence : RawSemanticResponse :=
  { score := some 1, confidence := none, explanation := some "solid match",
    key_differences := none, key_similarities := none }

/-- Witness for C10 at a concrete raw reply. -/
theorem validateSemantic_confidence_default_witness :
    validateSemantic sampleRawNoConfidence
      = .ok { score := 1, confidence := 0.85, explanation := "solid match",
              key_differences := [], key_similarities := [] } ∧
    (computeScore { score := 1, confidence := 0.85, explanation := "solid match",
                    key_differences := [], key_similarities := [] }).confidence = 0.85 := by
  have h := validateSemantic_confidence_default sampleRawNoConfidence rfl 1 rfl
    (by norm_num) (by norm_num) "solid match" rfl
  exact ⟨h.1, h.2 _ h.1⟩

end Arbiter
